import Mathlib

set_option autoImplicit false

/-!
Verification of the `Client` class of routingjs (`src/Client.ts`).

The client is a thin adapter over the axios HTTP library.  The shallow
embedding below translates the constructor and the `request` method.
External collaborators (the WHATWG `URL` parser, `JSON.stringify`, the axios
transport, and the axios-retry predicate `isNetworkOrIdempotentRequestError`)
are modelled as explicit function arguments, since they are out of scope of
the sources; everything the client itself computes is translated directly.
-/

namespace RoutingJS

/-- JavaScript objects with string keys, as ordered key-value lists.
Entries later in the list shadow earlier entries with the same key,
mirroring object-spread semantics. -/
abbrev KVMap := List (String × String)

/-- Property lookup under spread semantics: the LAST entry with the key wins,
so `objGet (a ++ b) k` behaves like lookup on the JavaScript spread of
objects `a` then `b`. -/
def objGet : KVMap → String → Option String
  | [], _ => none
  | (k', v) :: rest, k =>
    match objGet rest k with
    | some v' => some v'
    | none => if k' = k then some v else none

/-- A structured URL as produced by the WHATWG `URL` constructor: the part
before the query string plus the current list of search parameters.
`searchParams.append` adds a pair at the end of the list. -/
structure URLObj where
  base : String
  searchParams : KVMap
  deriving DecidableEq

/-- Serialization of the search parameters of a URL. -/
def renderQuery : KVMap → String
  | [] => ""
  | ps => "?" ++ String.intercalate "&" (ps.map fun kv => kv.1 ++ "=" ++ kv.2)

/-- `urlObj.toString()`. -/
def URLObj.toString (u : URLObj) : String :=
  u.base ++ renderQuery u.searchParams

/-- The part of an `AxiosResponse` the client reads: status code, status
text, and the payload. -/
structure AxiosResponseModel where
  status : Nat
  statusText : String
  data : String
  deriving DecidableEq

/-- An `AxiosError` as observed by the catch handlers in `Client.request`:
an optional HTTP response, an optional outgoing request object (modelled by
its JSON serialization), and the error name and message. -/
structure AxiosErrorModel where
  response : Option AxiosResponseModel
  request : Option String
  name : String
  message : String
  deriving DecidableEq

/-- The errors `Client.request` can throw: `RoutingJSAPIError`,
`RoutingJSClientError`, or the raw `TypeError` thrown by `new URL` when the
concatenated URL does not parse. -/
inductive RequestError where
  | apiError (message : String)
  | clientError (message : String)
  | urlParseError
  deriving DecidableEq

/-- Whether an error is a `RoutingJSAPIError`. -/
def RequestError.isAPIError : RequestError → Bool
  | .apiError _ => true
  | _ => false

/-- Whether an error is a `RoutingJSClientError`. -/
def RequestError.isClientError : RequestError → Bool
  | .clientError _ => true
  | _ => false

/-- A single HTTP call handed to the axios instance: either
`axiosInstance.post(url, body)` or `axiosInstance.get(url, { params })`. -/
inductive NetCall (G P : Type) where
  | post (url : String) (body : P)
  | get (url : String) (params : Option G)
  deriving DecidableEq

/-- How the network answers one call: the resolved payload data, or a
rejection with an axios error. -/
inductive NetResult where
  | success (data : String)
  | failure (e : AxiosErrorModel)
  deriving DecidableEq

/-- The external collaborators `Client.request` uses: the WHATWG URL parser
(`none` models the constructor throwing) and the `JSON.stringify`
serializers for GET parameters, POST parameters, and axios errors. -/
structure Externals (G P : Type) where
  parseURL : String → Option URLObj
  stringifyGet : G → String
  stringifyPost : P → String
  stringifyErr : AxiosErrorModel → String

/-- Template-literal interpolation of `JSON.stringify(x)` where `x` may be
`undefined`: `JSON.stringify(undefined)` is `undefined`, which the template
literal renders as the text `undefined`. -/
def stringifyOpt {G : Type} (stringify : G → String) : Option G → String
  | none => "undefined"
  | some g => stringify g

/-- Template-literal interpolation of `error.response?.status`, which is
`undefined` when there is no response. -/
def optStatusStr : Option Nat → String
  | none => "undefined"
  | some n => toString n

/-- The `requestInfo` template literal built in dry-run mode, whitespace
included. -/
def dryRunString (url method params : String) : String :=
  "\n                URL: " ++ url ++ "\n                Method: " ++ method
    ++ "\n                Parameters: " ++ params ++ "\n            "

/-- The auth-appending loop on the POST path:
`for (const [k, v] of Object.entries(auth)) urlObj.searchParams.append(k, v)`. -/
def appendAuth (u : URLObj) : Option KVMap → URLObj
  | some a => { u with searchParams := u.searchParams ++ a }
  | none => u

/-- The catch handler of the POST branch: every failure becomes a
`RoutingJSAPIError` whose message interpolates `error.response?.status` and
`JSON.stringify(error)`. -/
def postCatchHandler (stringifyErr : AxiosErrorModel → String)
    (e : AxiosErrorModel) : RequestError :=
  RequestError.apiError
    ("Request failed with status "
      ++ optStatusStr (e.response.map AxiosResponseModel.status)
      ++ ": " ++ stringifyErr e)

/-- The catch handler of the GET branch: three-way classification on
`error.response` and `error.request`. -/
def getCatchHandler (e : AxiosErrorModel) : RequestError :=
  match e.response with
  | some r =>
    RequestError.apiError
      ("Request failed with status " ++ toString r.status ++ ": " ++ e.message)
  | none =>
    match e.request with
    | some req =>
      RequestError.apiError ("Request failed with request " ++ req)
    | none =>
      RequestError.clientError
        ("Request failed with error " ++ e.name
          ++ ".\n                             Message: " ++ e.message ++ " ")

/-- `AxiosProxyConfig | false` as recorded in `this.proxy`. -/
inductive ProxySetting where
  | off
  | cfg (host : String) (port : Nat)
  deriving DecidableEq

/-- The fields of `AxiosRequestConfig` this client reads or writes; each is
optional, mirroring optional properties on the TypeScript type. -/
structure AxiosRequestConfigModel where
  headers : Option KVMap
  timeout : Option Nat
  proxy : Option ProxySetting
  deriving DecidableEq

/-- The axios options after the spread
`{ headers: this.headers, timeout, ...additionalAxiosOpts }`. -/
structure ResolvedAxiosOptions where
  headers : KVMap
  timeout : Nat
  proxy : Option ProxySetting
  deriving DecidableEq

/-- Builds `this.axiosOptions`: caller-supplied transport options override
the headers and timeout fields when present. -/
def mkAxiosOptions (mergedHeaders : KVMap) (timeout : Nat)
    (add : Option AxiosRequestConfigModel) : ResolvedAxiosOptions :=
  { headers :=
      match add with
      | some a => match a.headers with | some h => h | none => mergedHeaders
      | none => mergedHeaders
  , timeout :=
      match add with
      | some a => match a.timeout with | some t => t | none => timeout
      | none => timeout
  , proxy :=
      match add with
      | some a => a.proxy
      | none => none }

/-- The retry-delay strategy installed on the transport;
`axiosRetry.exponentialDelay` is the only value the client ever uses. -/
inductive RetryDelayKind where
  | exponentialDelay
  deriving DecidableEq

/-- The `IAxiosRetryConfig` the constructor passes to `axiosRetry`.
`retryCondition = none` models leaving the field `undefined`, which makes
axios-retry fall back to its default predicate. -/
structure RetryOptsModel where
  retries : Nat
  retryCondition : Option (AxiosErrorModel → Bool)
  retryDelay : RetryDelayKind

/-- The custom retry predicate installed when `retryOverQueryLimit` is true:
`(error) => isNetworkOrIdempotentRequestError(error) || error.response?.status == 429`.
`isNetIdem` stands for the external axios-retry predicate. -/
def customRetryCondition (isNetIdem : AxiosErrorModel → Bool)
    (e : AxiosErrorModel) : Bool :=
  isNetIdem e || (e.response.map AxiosResponseModel.status == some 429)

/-- The `retryOpts` object built in the constructor. -/
def mkRetryOpts (maxRetries : Nat) (retryOverQueryLimit : Bool)
    (isNetIdem : AxiosErrorModel → Bool) : RetryOptsModel :=
  { retries := maxRetries
  , retryCondition :=
      if retryOverQueryLimit then some (customRetryCondition isNetIdem)
      else none
  , retryDelay := RetryDelayKind.exponentialDelay }

/-- The state of a `Client` instance after construction. -/
structure ClientState where
  baseURL : String
  userAgent : String
  timeout : Nat
  retryOverQueryLimit : Bool
  headers : KVMap
  maxRetries : Nat
  proxy : Option ProxySetting
  axiosOptions : ResolvedAxiosOptions
  retryOpts : RetryOptsModel

/-- The `Client` constructor.  `defaultHeaders` stands for
`options.defaultHeaders` (the `options` module is outside the provided
sources, so the defaults are an explicit argument); `isNetIdem` is the
external axios-retry predicate `isNetworkOrIdempotentRequestError`. -/
def mkClient (defaultHeaders : KVMap) (isNetIdem : AxiosErrorModel → Bool)
    (baseURL : String) (userAgent : String) (timeout : Nat)
    (retryOverQueryLimit : Bool) (headers : Option KVMap) (maxRetries : Nat)
    (additionalAxiosOpts : Option AxiosRequestConfigModel) : ClientState :=
  let mergedHeaders : KVMap :=
    defaultHeaders ++ [("User-Agent", userAgent)]
      ++ (match headers with | some h => h | none => [])
  { baseURL := baseURL
  , userAgent := userAgent
  , timeout := timeout
  , retryOverQueryLimit := retryOverQueryLimit
  , headers := mergedHeaders
  , maxRetries := maxRetries
  , proxy := match additionalAxiosOpts with | some a => a.proxy | none => none
  , axiosOptions := mkAxiosOptions mergedHeaders timeout additionalAxiosOpts
  , retryOpts := mkRetryOpts maxRetries retryOverQueryLimit isNetIdem }

/-- The arguments of `Client.request`. -/
structure RequestArgs (G P : Type) where
  endpoint : String
  getParams : Option G
  postParams : Option P
  auth : Option KVMap
  dryRun : Option Bool

/-- The `request` method.  `net` models the axios instance: how the network
answers a single HTTP call.  The result components are: the client state
after the call (the method never assigns to `this`, which the translation
makes explicit by returning the state), the network call issued if any, and
the settled promise — `Except.ok` is the resolved value (payload data or
dry-run string), `Except.error` the thrown error. -/
def ClientState.request {G P : Type} (ext : Externals G P)
    (net : NetCall G P → NetResult) (c : ClientState)
    (args : RequestArgs G P) :
    ClientState × Option (NetCall G P) × Except RequestError String :=
  match ext.parseURL (c.baseURL ++ args.endpoint) with
  | none => (c, none, Except.error RequestError.urlParseError)
  | some u =>
    match args.postParams with
    | some postParams =>
      let urlObj : URLObj := appendAuth u args.auth
      if args.dryRun = some true then
        (c, none,
          Except.ok
            (dryRunString urlObj.toString "POST" (ext.stringifyPost postParams)))
      else
        match net (NetCall.post urlObj.toString postParams) with
        | NetResult.success data =>
          (c, some (NetCall.post urlObj.toString postParams), Except.ok data)
        | NetResult.failure e =>
          (c, some (NetCall.post urlObj.toString postParams),
            Except.error (postCatchHandler ext.stringifyErr e))
    | none =>
      if args.dryRun = some true then
        (c, none,
          Except.ok
            (dryRunString u.toString "GET"
              (stringifyOpt ext.stringifyGet args.getParams)))
      else
        match net (NetCall.get u.toString args.getParams) with
        | NetResult.success data =>
          (c, some (NetCall.get u.toString args.getParams), Except.ok data)
        | NetResult.failure e =>
          (c, some (NetCall.get u.toString args.getParams),
            Except.error (getCatchHandler e))

/-- Boolean test: the first list starts the second one. -/
def listPrefixTest : List Char → List Char → Bool
  | [], _ => true
  | _ :: _, [] => false
  | a :: as, b :: bs => a == b && listPrefixTest as bs

/-- Boolean test: `pat` occurs contiguously inside the second list. -/
def listInfixTest (pat : List Char) : List Char → Bool
  | [] => pat.isEmpty
  | c :: rest => listPrefixTest pat (c :: rest) || listInfixTest pat rest

/-- Boolean substring test on strings: `pat` occurs contiguously in `s`. -/
def strContains (s pat : String) : Bool :=
  listInfixTest pat.data s.data

theorem listPrefixTest_iff (p : List Char) :
    ∀ s : List Char, listPrefixTest p s = true ↔ p <+: s := by
  induction p with
  | nil => intro s; simp [listPrefixTest, List.nil_prefix]
  | cons a as ih =>
    intro s
    cases s with
    | nil => simp [listPrefixTest, List.prefix_nil]
    | cons b bs =>
      simp [listPrefixTest, List.cons_prefix_cons, ih]

theorem listInfixTest_iff (p s : List Char) :
    listInfixTest p s = true ↔ p <:+: s := by
  induction s with
  | nil => simp [listInfixTest, List.isEmpty_iff, List.infix_nil]
  | cons c rest ih =>
    simp [listInfixTest, listPrefixTest_iff, ih, List.infix_cons_iff]

theorem strContains_iff (s pat : String) :
    strContains s pat = true ↔ pat.data <:+: s.data := by
  rw [strContains, listInfixTest_iff]

theorem strData_append (a b : String) : (a ++ b).data = a.data ++ b.data := by
  cases a; cases b; rfl

/-- A string built around `b` contains `b`. -/
theorem strContains_middle (a b c : String) :
    strContains (a ++ b ++ c) b = true := by
  rw [strContains_iff, strData_append, strData_append]
  exact List.infix_append _ _ _

theorem dryRunString_contains_url (url m p : String) :
    strContains (dryRunString url m p) url = true := by
  have h : dryRunString url m p =
      "\n                URL: " ++ url ++
        ("\n                Method: " ++ m ++ "\n                Parameters: "
          ++ p ++ "\n            ") := by
    simp [dryRunString, String.append_assoc]
  rw [h]
  exact strContains_middle _ _ _

theorem dryRunString_contains_method (url m p : String) :
    strContains (dryRunString url m p) m = true := by
  have h : dryRunString url m p =
      ("\n                URL: " ++ url ++ "\n                Method: ") ++ m ++
        ("\n                Parameters: " ++ p ++ "\n            ") := by
    simp [dryRunString, String.append_assoc]
  rw [h]
  exact strContains_middle _ _ _

theorem dryRunString_contains_params (url m p : String) :
    strContains (dryRunString url m p) p = true := by
  have h : dryRunString url m p =
      ("\n                URL: " ++ url ++ "\n                Method: " ++ m
          ++ "\n                Parameters: ") ++ p ++ "\n            " := by
    simp [dryRunString, String.append_assoc]
  rw [h]
  exact strContains_middle _ _ _

theorem objGet_append_of_some (xs ys : KVMap) (k v : String)
    (h : objGet ys k = some v) : objGet (xs ++ ys) k = some v := by
  induction xs with
  | nil => simpa using h
  | cons kv rest ih =>
    obtain ⟨k', v'⟩ := kv
    simp only [List.cons_append, objGet, List.append_eq, ih]

theorem objGet_append_of_none (xs ys : KVMap) (k : String)
    (h : objGet ys k = none) : objGet (xs ++ ys) k = objGet xs k := by
  induction xs with
  | nil => simpa using h
  | cons kv rest ih =>
    obtain ⟨k', v'⟩ := kv
    simp only [List.cons_append, objGet, List.append_eq, ih]

/-- Concrete externals for witnesses: a URL parser that accepts every string
(with no initial search parameters) and simple serializers. -/
def exampleExternals : Externals KVMap KVMap where
  parseURL := fun s => some { base := s, searchParams := [] }
  stringifyGet := fun ps =>
    "g:" ++ String.intercalate "," (ps.map fun kv => kv.1 ++ "=" ++ kv.2)
  stringifyPost := fun ps =>
    "p:" ++ String.intercalate "," (ps.map fun kv => kv.1 ++ "=" ++ kv.2)
  stringifyErr := fun e => "err:" ++ e.name ++ ":" ++ e.message

/-- Concrete externals whose URL parser rejects every input, exercising the
path where `new URL` throws. -/
def exampleExternalsBadURL : Externals KVMap KVMap where
  parseURL := fun _ => none
  stringifyGet := fun _ => ""
  stringifyPost := fun _ => ""
  stringifyErr := fun _ => ""

/-- A concrete stand-in for the external axios-retry predicate. -/
def exampleIsNetIdem : AxiosErrorModel → Bool := fun e => e.response.isNone

/-- A concrete client for witnesses. -/
def exampleClient : ClientState :=
  mkClient [("Content-Type", "application/json")] exampleIsNetIdem
    "https://example.org" "routingjs" 5000 false none 2 none

/-- A network that answers every call successfully. -/
def exampleNetOk : NetCall KVMap KVMap → NetResult :=
  fun _ => NetResult.success "payload"

/-- A setup-time failure: no response and no request object. -/
def exampleErrSetup : AxiosErrorModel :=
  { response := none, request := none
  , name := "AxiosError", message := "bad config" }

/-- A network that rejects every call with a setup-time failure. -/
def exampleNetFail : NetCall KVMap KVMap → NetResult :=
  fun _ => NetResult.failure exampleErrSetup

/-- Claim C1: counterexample.  On the GET path (postParams undefined) the
auth parameters are NOT appended to the target URL: with auth `k=v`, the
dry-run output names the bare URL and does not contain `k=v`, and the real
GET request goes to the bare URL, which has no auth query parameter. -/
theorem C1_counterexample :
    (exampleClient.request exampleExternals exampleNetOk
        { endpoint := "/route", getParams := none, postParams := none
        , auth := some [("k", "v")], dryRun := some true }).2.2 =
      Except.ok (dryRunString "https://example.org/route" "GET" "undefined") ∧
    strContains (dryRunString "https://example.org/route" "GET" "undefined")
      "k=v" = false ∧
    (exampleClient.request exampleExternals exampleNetOk
        { endpoint := "/route", getParams := none, postParams := none
        , auth := some [("k", "v")], dryRun := none }).2.1 =
      some (NetCall.get "https://example.org/route" none) ∧
    strContains "https://example.org/route" "k=v" = false := by
  exact ⟨rfl, by decide, rfl, by decide⟩

/-- Claim C1 (amended): when provided, the auth parameters are appended to
the target URL as query parameters on the POST path only; on the GET path
(postParams undefined) they are ignored entirely — the outcome does not
depend on them. -/
theorem C1_auth_only_on_post {G P : Type} (ext : Externals G P)
    (net : NetCall G P → NetResult) (c : ClientState)
    (args : RequestArgs G P) :
    (args.postParams = none →
      ∀ a₁ a₂ : Option KVMap,
        c.request ext net { args with auth := a₁ } =
          c.request ext net { args with auth := a₂ }) ∧
    (∀ u p, ext.parseURL (c.baseURL ++ args.endpoint) = some u →
      args.postParams = some p → args.dryRun ≠ some true →
      (c.request ext net args).2.1 =
        some (NetCall.post (appendAuth u args.auth).toString p) ∧
      ∀ a kv, args.auth = some a → kv ∈ a →
        kv ∈ (appendAuth u args.auth).searchParams) := by
  obtain ⟨ep, gp, pp, au, dr⟩ := args
  constructor
  · intro hpost a₁ a₂
    change pp = none at hpost
    subst hpost
    rfl
  · intro u p hparse hpost hdry
    change pp = some p at hpost
    change dr ≠ some true at hdry
    subst hpost
    constructor
    · simp only [ClientState.request, hparse]
      rw [if_neg hdry]
      cases net (NetCall.post (appendAuth u au).toString p) <;> rfl
    · intro a kv hauth hkv
      change au = some a at hauth
      subst hauth
      exact List.mem_append_right _ hkv

/-- Witness for the amended claim C1 at concrete inputs: varying auth leaves
a GET request unchanged, and a POST request appends auth to the URL. -/
theorem C1_auth_only_on_post_witness :
    (exampleClient.request exampleExternals exampleNetOk
        { endpoint := "/route", getParams := none, postParams := none
        , auth := some [("k", "v")], dryRun := none } =
      exampleClient.request exampleExternals exampleNetOk
        { endpoint := "/route", getParams := none, postParams := none
        , auth := none, dryRun := none }) ∧
    (exampleClient.request exampleExternals exampleNetOk
        { endpoint := "/route", getParams := none, postParams := some [("c", "1")]
        , auth := some [("k", "v")], dryRun := none }).2.1 =
      some (NetCall.post
        (appendAuth { base := "https://example.org/route", searchParams := [] }
          (some [("k", "v")])).toString [("c", "1")]) ∧
    ("k", "v") ∈ (appendAuth
        { base := "https://example.org/route", searchParams := [] }
        (some [("k", "v")])).searchParams := by
  refine ⟨?_, ?_, ?_⟩
  · exact (C1_auth_only_on_post exampleExternals exampleNetOk exampleClient
      { endpoint := "/route", getParams := none, postParams := none
      , auth := some [("k", "v")], dryRun := none }).1 rfl
        (some [("k", "v")]) none
  · exact ((C1_auth_only_on_post exampleExternals exampleNetOk exampleClient
      { endpoint := "/route", getParams := none, postParams := some [("c", "1")]
      , auth := some [("k", "v")], dryRun := none }).2
        { base := "https://example.org/route", searchParams := [] }
        [("c", "1")] rfl rfl (by decide)).1
  · exact ((C1_auth_only_on_post exampleExternals exampleNetOk exampleClient
      { endpoint := "/route", getParams := none, postParams := some [("c", "1")]
      , auth := some [("k", "v")], dryRun := none }).2
        { base := "https://example.org/route", searchParams := [] }
        [("c", "1")] rfl rfl (by decide)).2 [("k", "v")] ("k", "v") rfl
        (by decide)

/-- Claim C2: a live request is routed as POST exactly when postParams is
not undefined (an empty object still forces POST); when postParams is
undefined it is routed as GET, even when getParams is also undefined. -/
theorem C2_routing {G P : Type} (ext : Externals G P)
    (net : NetCall G P → NetResult) (c : ClientState) (args : RequestArgs G P)
    (u : URLObj)
    (hparse : ext.parseURL (c.baseURL ++ args.endpoint) = some u)
    (hlive : args.dryRun ≠ some true) :
    (∀ p, args.postParams = some p →
      (c.request ext net args).2.1 =
        some (NetCall.post (appendAuth u args.auth).toString p)) ∧
    (args.postParams = none →
      (c.request ext net args).2.1 =
        some (NetCall.get u.toString args.getParams)) := by
  obtain ⟨ep, gp, pp, au, dr⟩ := args
  change dr ≠ some true at hlive
  constructor
  · intro p hpost
    change pp = some p at hpost
    subst hpost
    simp only [ClientState.request, hparse]
    rw [if_neg hlive]
    cases net (NetCall.post (appendAuth u au).toString p) <;> rfl
  · intro hpost
    change pp = none at hpost
    subst hpost
    simp only [ClientState.request, hparse]
    rw [if_neg hlive]
    cases net (NetCall.get u.toString gp) <;> rfl

/-- Witness for claim C2: an empty POST-params object routes as POST, and
absent POST params route as GET even with absent GET params. -/
theorem C2_routing_witness :
    (exampleClient.request exampleExternals exampleNetOk
        { endpoint := "/route", getParams := none, postParams := some []
        , auth := none, dryRun := none }).2.1 =
      some (NetCall.post
        (appendAuth { base := "https://example.org/route", searchParams := [] }
          none).toString ([] : KVMap)) ∧
    (exampleClient.request exampleExternals exampleNetOk
        { endpoint := "/route", getParams := none, postParams := none
        , auth := none, dryRun := none }).2.1 =
      some (NetCall.get
        (URLObj.toString
          { base := "https://example.org/route", searchParams := [] })
        none) := by
  constructor
  · exact (C2_routing exampleExternals exampleNetOk exampleClient
      { endpoint := "/route", getParams := none, postParams := some []
      , auth := none, dryRun := none }
      { base := "https://example.org/route", searchParams := [] }
      rfl (by decide)).1 [] rfl
  · exact (C2_routing exampleExternals exampleNetOk exampleClient
      { endpoint := "/route", getParams := none, postParams := none
      , auth := none, dryRun := none }
      { base := "https://example.org/route", searchParams := [] }
      rfl (by decide)).2 rfl

/-- Claim C3: with dryRun true no network call is made — the outcome is
independent of the network and no call is recorded — and the resolved value
is a string containing the fully-qualified final URL, the literal method
name matching the routing decision, and the JSON serialization of the
corresponding parameters (postParams on the POST path, getParams on the GET
path). -/
theorem C3_dryRun {G P : Type} (ext : Externals G P)
    (net net' : NetCall G P → NetResult) (c : ClientState)
    (args : RequestArgs G P) (u : URLObj)
    (hparse : ext.parseURL (c.baseURL ++ args.endpoint) = some u)
    (hdry : args.dryRun = some true) :
    c.request ext net args = c.request ext net' args ∧
    (c.request ext net args).2.1 = none ∧
    (∀ p, args.postParams = some p →
      (c.request ext net args).2.2 =
        Except.ok (dryRunString (appendAuth u args.auth).toString "POST"
          (ext.stringifyPost p)) ∧
      strContains (dryRunString (appendAuth u args.auth).toString "POST"
          (ext.stringifyPost p)) (appendAuth u args.auth).toString = true ∧
      strContains (dryRunString (appendAuth u args.auth).toString "POST"
          (ext.stringifyPost p)) "POST" = true ∧
      strContains (dryRunString (appendAuth u args.auth).toString "POST"
          (ext.stringifyPost p)) (ext.stringifyPost p) = true) ∧
    (args.postParams = none →
      (c.request ext net args).2.2 =
        Except.ok (dryRunString u.toString "GET"
          (stringifyOpt ext.stringifyGet args.getParams)) ∧
      strContains (dryRunString u.toString "GET"
          (stringifyOpt ext.stringifyGet args.getParams)) u.toString = true ∧
      strContains (dryRunString u.toString "GET"
          (stringifyOpt ext.stringifyGet args.getParams)) "GET" = true ∧
      strContains (dryRunString u.toString "GET"
          (stringifyOpt ext.stringifyGet args.getParams))
        (stringifyOpt ext.stringifyGet args.getParams) = true) := by
  obtain ⟨ep, gp, pp, au, dr⟩ := args
  change dr = some true at hdry
  subst hdry
  cases pp with
  | some p =>
    refine ⟨rfl, ?_, ?_, ?_⟩
    · simp only [ClientState.request, hparse]
      rw [if_pos trivial]
    · intro p' hpost
      injection hpost with h
      subst h
      refine ⟨?_, dryRunString_contains_url _ _ _,
        dryRunString_contains_method _ _ _, dryRunString_contains_params _ _ _⟩
      simp only [ClientState.request, hparse]
      rw [if_pos trivial]
    · intro hpost
      exact absurd hpost (Option.some_ne_none p)
  | none =>
    refine ⟨rfl, ?_, ?_, ?_⟩
    · simp only [ClientState.request, hparse]
      rw [if_pos trivial]
    · intro p hpost
      exact absurd hpost (by simp)
    · intro hpost
      refine ⟨?_, dryRunString_contains_url _ _ _,
        dryRunString_contains_method _ _ _, dryRunString_contains_params _ _ _⟩
      simp only [ClientState.request, hparse]
      rw [if_pos trivial]

/-- Witness for claim C3 at concrete inputs, on both the POST and GET
paths. -/
theorem C3_dryRun_witness :
    (exampleClient.request exampleExternals exampleNetOk
        { endpoint := "/route", getParams := none
        , postParams := some [("c", "1")], auth := some [("k", "v")]
        , dryRun := some true }).2.1 = none ∧
    (exampleClient.request exampleExternals exampleNetOk
        { endpoint := "/route", getParams := some [("q", "2")]
        , postParams := none, auth := none, dryRun := some true }).2.2 =
      Except.ok (dryRunString
        (URLObj.toString
          { base := "https://example.org/route", searchParams := [] })
        "GET" (stringifyOpt exampleExternals.stringifyGet
          (some [("q", "2")]))) := by
  constructor
  · exact (C3_dryRun exampleExternals exampleNetOk exampleNetFail
      exampleClient
      { endpoint := "/route", getParams := none
      , postParams := some [("c", "1")], auth := some [("k", "v")]
      , dryRun := some true }
      { base := "https://example.org/route", searchParams := [] }
      rfl rfl).2.1
  · exact ((C3_dryRun exampleExternals exampleNetOk exampleNetFail
      exampleClient
      { endpoint := "/route", getParams := some [("q", "2")]
      , postParams := none, auth := none, dryRun := some true }
      { base := "https://example.org/route", searchParams := [] }
      rfl rfl).2.2.2 rfl).1

/-- A string built as `a ++ b` contains `b`. -/
theorem strContains_right (a b : String) : strContains (a ++ b) b = true := by
  rw [strContains_iff, strData_append]
  exact (List.suffix_append _ _).isInfix

/-- Claim C4: with postParams and auth both defined, the final URL object
carries every auth key/value pair as a query parameter (the same URL is
used in dry-run and real mode), and the POST body equals postParams
verbatim — auth is not part of the body. -/
theorem C4_post_auth {G P : Type} (ext : Externals G P)
    (net : NetCall G P → NetResult) (c : ClientState) (args : RequestArgs G P)
    (u : URLObj) (p : P) (a : KVMap)
    (hparse : ext.parseURL (c.baseURL ++ args.endpoint) = some u)
    (hpost : args.postParams = some p) (hauth : args.auth = some a) :
    (∀ kv ∈ a, kv ∈ (appendAuth u args.auth).searchParams) ∧
    (args.dryRun = some true →
      (c.request ext net args).2.2 =
        Except.ok (dryRunString (appendAuth u args.auth).toString "POST"
          (ext.stringifyPost p)) ∧
      strContains (dryRunString (appendAuth u args.auth).toString "POST"
          (ext.stringifyPost p)) (appendAuth u args.auth).toString = true) ∧
    (args.dryRun ≠ some true →
      (c.request ext net args).2.1 =
        some (NetCall.post (appendAuth u args.auth).toString p)) := by
  obtain ⟨ep, gp, pp, au, dr⟩ := args
  change pp = some p at hpost
  change au = some a at hauth
  subst hpost
  subst hauth
  refine ⟨?_, ?_, ?_⟩
  · intro kv hkv
    exact List.mem_append_right _ hkv
  · intro hdry
    change dr = some true at hdry
    subst hdry
    refine ⟨?_, dryRunString_contains_url _ _ _⟩
    simp only [ClientState.request, hparse]
    rw [if_pos trivial]
  · intro hdry
    change dr ≠ some true at hdry
    simp only [ClientState.request, hparse]
    rw [if_neg hdry]
    cases net (NetCall.post (appendAuth u (some a)).toString p) <;> rfl

/-- Witness for claim C4 at a concrete POST request with auth. -/
theorem C4_post_auth_witness :
    ("key", "secret") ∈ (appendAuth
        { base := "https://example.org/route", searchParams := [] }
        (some [("key", "secret")])).searchParams ∧
    (exampleClient.request exampleExternals exampleNetOk
        { endpoint := "/route", getParams := none
        , postParams := some [("c", "1")], auth := some [("key", "secret")]
        , dryRun := none }).2.1 =
      some (NetCall.post
        (appendAuth { base := "https://example.org/route", searchParams := [] }
          (some [("key", "secret")])).toString [("c", "1")]) := by
  constructor
  · exact (C4_post_auth exampleExternals exampleNetOk exampleClient
      { endpoint := "/route", getParams := none
      , postParams := some [("c", "1")], auth := some [("key", "secret")]
      , dryRun := none }
      { base := "https://example.org/route", searchParams := [] }
      [("c", "1")] [("key", "secret")] rfl rfl rfl).1
      ("key", "secret") (by decide)
  · exact (C4_post_auth exampleExternals exampleNetOk exampleClient
      { endpoint := "/route", getParams := none
      , postParams := some [("c", "1")], auth := some [("key", "secret")]
      , dryRun := none }
      { base := "https://example.org/route", searchParams := [] }
      [("c", "1")] [("key", "secret")] rfl rfl rfl).2.2 (by decide)

/-- Claim C5: GET-path failures are classified three ways.  A failure with
an HTTP response raises a RoutingJSAPIError carrying the status and message;
one with no response but an outgoing request object raises a
RoutingJSAPIError including the serialized request; one with neither raises
a RoutingJSClientError — never an APIError — carrying the underlying error
name and message. -/
theorem C5_get_error_classification {G P : Type} (ext : Externals G P)
    (net : NetCall G P → NetResult) (c : ClientState) (args : RequestArgs G P)
    (u : URLObj) (e : AxiosErrorModel)
    (hparse : ext.parseURL (c.baseURL ++ args.endpoint) = some u)
    (hget : args.postParams = none) (hlive : args.dryRun ≠ some true)
    (hfail : net (NetCall.get u.toString args.getParams) =
      NetResult.failure e) :
    (c.request ext net args).2.2 = Except.error (getCatchHandler e) ∧
    (∀ r, e.response = some r →
      getCatchHandler e = RequestError.apiError
        ("Request failed with status " ++ toString r.status ++ ": "
          ++ e.message)) ∧
    (e.response = none → ∀ req, e.request = some req →
      getCatchHandler e =
        RequestError.apiError ("Request failed with request " ++ req)) ∧
    (e.response = none → e.request = none →
      getCatchHandler e = RequestError.clientError
        ("Request failed with error " ++ e.name
          ++ ".\n                             Message: " ++ e.message ++ " ") ∧
      (getCatchHandler e).isClientError = true ∧
      (getCatchHandler e).isAPIError = false) := by
  obtain ⟨ep, gp, pp, au, dr⟩ := args
  change pp = none at hget
  change dr ≠ some true at hlive
  change net (NetCall.get u.toString gp) = NetResult.failure e at hfail
  subst hget
  refine ⟨?_, ?_, ?_, ?_⟩
  · simp only [ClientState.request, hparse]
    rw [if_neg hlive, hfail]
  · intro r hr
    simp [getCatchHandler, hr]
  · intro hr req hreq
    simp [getCatchHandler, hr, hreq]
  · intro hr hreq
    simp [getCatchHandler, hr, hreq, RequestError.isClientError,
      RequestError.isAPIError]

/-- Witness for claim C5: a setup-time GET failure (no response, no request
object) yields a RoutingJSClientError and not an APIError. -/
theorem C5_get_error_classification_witness :
    (exampleClient.request exampleExternals exampleNetFail
        { endpoint := "/route", getParams := none, postParams := none
        , auth := none, dryRun := none }).2.2 =
      Except.error (getCatchHandler exampleErrSetup) ∧
    (getCatchHandler exampleErrSetup).isClientError = true ∧
    (getCatchHandler exampleErrSetup).isAPIError = false := by
  refine ⟨?_, ?_, ?_⟩
  · exact (C5_get_error_classification exampleExternals exampleNetFail
      exampleClient
      { endpoint := "/route", getParams := none, postParams := none
      , auth := none, dryRun := none }
      { base := "https://example.org/route", searchParams := [] }
      exampleErrSetup rfl rfl (by decide) rfl).1
  · exact ((C5_get_error_classification exampleExternals exampleNetFail
      exampleClient
      { endpoint := "/route", getParams := none, postParams := none
      , auth := none, dryRun := none }
      { base := "https://example.org/route", searchParams := [] }
      exampleErrSetup rfl rfl (by decide) rfl).2.2.2 rfl rfl).2.1
  · exact ((C5_get_error_classification exampleExternals exampleNetFail
      exampleClient
      { endpoint := "/route", getParams := none, postParams := none
      , auth := none, dryRun := none }
      { base := "https://example.org/route", searchParams := [] }
      exampleErrSetup rfl rfl (by decide) rfl).2.2.2 rfl rfl).2.2

/-- Claim C6: every POST-path failure — including a setup-time one with
neither response nor request object — raises a RoutingJSAPIError whose
message interpolates the HTTP status when available (the text `undefined`
otherwise) and the JSON dump of the underlying failure; a
RoutingJSClientError is never raised on the POST path. -/
theorem C6_post_error {G P : Type} (ext : Externals G P)
    (net : NetCall G P → NetResult) (c : ClientState) (args : RequestArgs G P)
    (u : URLObj) (p : P) (e : AxiosErrorModel)
    (hparse : ext.parseURL (c.baseURL ++ args.endpoint) = some u)
    (hpost : args.postParams = some p) (hlive : args.dryRun ≠ some true)
    (hfail : net (NetCall.post (appendAuth u args.auth).toString p) =
      NetResult.failure e) :
    (c.request ext net args).2.2 =
      Except.error (postCatchHandler ext.stringifyErr e) ∧
    postCatchHandler ext.stringifyErr e =
      RequestError.apiError
        ("Request failed with status "
          ++ optStatusStr (e.response.map AxiosResponseModel.status)
          ++ ": " ++ ext.stringifyErr e) ∧
    (postCatchHandler ext.stringifyErr e).isAPIError = true ∧
    (postCatchHandler ext.stringifyErr e).isClientError = false ∧
    strContains
      ("Request failed with status "
        ++ optStatusStr (e.response.map AxiosResponseModel.status)
        ++ ": " ++ ext.stringifyErr e) (ext.stringifyErr e) = true := by
  obtain ⟨ep, gp, pp, au, dr⟩ := args
  change pp = some p at hpost
  change dr ≠ some true at hlive
  change net (NetCall.post (appendAuth u au).toString p) =
    NetResult.failure e at hfail
  subst hpost
  refine ⟨?_, rfl, rfl, rfl, ?_⟩
  · simp only [ClientState.request, hparse]
    rw [if_neg hlive, hfail]
  · exact strContains_right _ _

/-- Witness for claim C6: a setup-time POST failure still yields a
RoutingJSAPIError. -/
theorem C6_post_error_witness :
    (exampleClient.request exampleExternals exampleNetFail
        { endpoint := "/route", getParams := none, postParams := some [("c", "1")]
        , auth := none, dryRun := none }).2.2 =
      Except.error (postCatchHandler exampleExternals.stringifyErr
        exampleErrSetup) ∧
    (postCatchHandler exampleExternals.stringifyErr
      exampleErrSetup).isAPIError = true ∧
    (postCatchHandler exampleExternals.stringifyErr
      exampleErrSetup).isClientError = false := by
  refine ⟨?_, ?_, ?_⟩
  · exact (C6_post_error exampleExternals exampleNetFail exampleClient
      { endpoint := "/route", getParams := none
      , postParams := some [("c", "1")], auth := none, dryRun := none }
      { base := "https://example.org/route", searchParams := [] }
      [("c", "1")] exampleErrSetup rfl rfl (by decide) rfl).1
  · exact (C6_post_error exampleExternals exampleNetFail exampleClient
      { endpoint := "/route", getParams := none
      , postParams := some [("c", "1")], auth := none, dryRun := none }
      { base := "https://example.org/route", searchParams := [] }
      [("c", "1")] exampleErrSetup rfl rfl (by decide) rfl).2.2.1
  · exact (C6_post_error exampleExternals exampleNetFail exampleClient
      { endpoint := "/route", getParams := none
      , postParams := some [("c", "1")], auth := none, dryRun := none }
      { base := "https://example.org/route", searchParams := [] }
      [("c", "1")] exampleErrSetup rfl rfl (by decide) rfl).2.2.2.1

/-- Claim C7: constructing a client with a custom headers map merges it over
the defaults: a caller-supplied key (the User-Agent key included) takes the
caller value, every default header whose key conflicts with neither the
caller headers nor the inserted User-Agent header keeps its default value,
and an absent User-Agent caller key resolves to the userAgent argument. -/
theorem C7_headers (defaultHeaders : KVMap)
    (isNetIdem : AxiosErrorModel → Bool) (baseURL userAgent : String)
    (timeout : Nat) (retryOverQueryLimit : Bool) (caller : KVMap)
    (maxRetries : Nat) (addOpts : Option AxiosRequestConfigModel)
    (k : String) :
    (mkClient defaultHeaders isNetIdem baseURL userAgent timeout
        retryOverQueryLimit (some caller) maxRetries addOpts).headers =
      defaultHeaders ++ [("User-Agent", userAgent)] ++ caller ∧
    (∀ v, objGet caller k = some v →
      objGet (mkClient defaultHeaders isNetIdem baseURL userAgent timeout
          retryOverQueryLimit (some caller) maxRetries addOpts).headers k =
        some v) ∧
    (objGet caller k = none → k ≠ "User-Agent" →
      objGet (mkClient defaultHeaders isNetIdem baseURL userAgent timeout
          retryOverQueryLimit (some caller) maxRetries addOpts).headers k =
        objGet defaultHeaders k) ∧
    (objGet caller k = none → k = "User-Agent" →
      objGet (mkClient defaultHeaders isNetIdem baseURL userAgent timeout
          retryOverQueryLimit (some caller) maxRetries addOpts).headers k =
        some userAgent) := by
  have hh : (mkClient defaultHeaders isNetIdem baseURL userAgent timeout
      retryOverQueryLimit (some caller) maxRetries addOpts).headers =
      defaultHeaders ++ [("User-Agent", userAgent)] ++ caller := rfl
  refine ⟨hh, ?_, ?_, ?_⟩
  · intro v hv
    rw [hh]
    exact objGet_append_of_some _ _ _ _ hv
  · intro hnone hne
    have h1 : objGet [("User-Agent", userAgent)] k = none := by
      simp [objGet, Ne.symm hne]
    rw [hh, objGet_append_of_none _ _ _ hnone,
      objGet_append_of_none _ _ _ h1]
  · intro hnone heq
    subst heq
    have h2 : objGet [("User-Agent", userAgent)] "User-Agent" =
        some userAgent := by
      simp [objGet]
    rw [hh, objGet_append_of_none _ _ _ hnone]
    exact objGet_append_of_some _ _ _ _ h2

/-- Witness for claim C7 at a concrete headers map: a conflicting key takes
the caller value, a caller User-Agent key overrides, and a non-conflicting
default key keeps its default value. -/
theorem C7_headers_witness :
    objGet (mkClient
        [("Content-Type", "application/json"), ("Accept", "application/xml")]
        exampleIsNetIdem "https://example.org" "routingjs" 5000 false
        (some [("Content-Type", "text/plain"), ("User-Agent", "custom")])
        2 none).headers "Content-Type" = some "text/plain" ∧
    objGet (mkClient
        [("Content-Type", "application/json"), ("Accept", "application/xml")]
        exampleIsNetIdem "https://example.org" "routingjs" 5000 false
        (some [("Content-Type", "text/plain"), ("User-Agent", "custom")])
        2 none).headers "User-Agent" = some "custom" ∧
    objGet (mkClient
        [("Content-Type", "application/json"), ("Accept", "application/xml")]
        exampleIsNetIdem "https://example.org" "routingjs" 5000 false
        (some [("Content-Type", "text/plain"), ("User-Agent", "custom")])
        2 none).headers "Accept" =
      objGet [("Content-Type", "application/json"),
        ("Accept", "application/xml")] "Accept" := by
  refine ⟨?_, ?_, ?_⟩
  · exact (C7_headers
      [("Content-Type", "application/json"), ("Accept", "application/xml")]
      exampleIsNetIdem "https://example.org" "routingjs" 5000 false
      [("Content-Type", "text/plain"), ("User-Agent", "custom")] 2 none
      "Content-Type").2.1 "text/plain" rfl
  · exact (C7_headers
      [("Content-Type", "application/json"), ("Accept", "application/xml")]
      exampleIsNetIdem "https://example.org" "routingjs" 5000 false
      [("Content-Type", "text/plain"), ("User-Agent", "custom")] 2 none
      "User-Agent").2.1 "custom" rfl
  · exact (C7_headers
      [("Content-Type", "application/json"), ("Accept", "application/xml")]
      exampleIsNetIdem "https://example.org" "routingjs" 5000 false
      [("Content-Type", "text/plain"), ("User-Agent", "custom")] 2 none
      "Accept").2.2.1 rfl (by decide)

/-- Claim C8: the constructor configures the transport retry with count
equal to maxRetries and the transport exponential-backoff delay; with
retryOverQueryLimit true the installed predicate retries exactly when the
external network-or-idempotent predicate holds or the response status
equals 429, and with retryOverQueryLimit false no custom predicate is
installed, leaving the transport default. -/
theorem C8_retry (defaultHeaders : KVMap)
    (isNetIdem : AxiosErrorModel → Bool) (baseURL userAgent : String)
    (timeout : Nat) (retryOverQueryLimit : Bool) (headers : Option KVMap)
    (maxRetries : Nat) (addOpts : Option AxiosRequestConfigModel)
    (e : AxiosErrorModel) :
    (mkClient defaultHeaders isNetIdem baseURL userAgent timeout
        retryOverQueryLimit headers maxRetries addOpts).retryOpts.retries =
      maxRetries ∧
    (mkClient defaultHeaders isNetIdem baseURL userAgent timeout
        retryOverQueryLimit headers maxRetries addOpts).retryOpts.retryDelay =
      RetryDelayKind.exponentialDelay ∧
    (retryOverQueryLimit = true →
      (mkClient defaultHeaders isNetIdem baseURL userAgent timeout
          retryOverQueryLimit headers maxRetries
          addOpts).retryOpts.retryCondition =
        some (customRetryCondition isNetIdem) ∧
      customRetryCondition isNetIdem e =
        (isNetIdem e ||
          (e.response.map AxiosResponseModel.status == some 429))) ∧
    (retryOverQueryLimit = false →
      (mkClient defaultHeaders isNetIdem baseURL userAgent timeout
          retryOverQueryLimit headers maxRetries
          addOpts).retryOpts.retryCondition = none) := by
  refine ⟨rfl, rfl, ?_, ?_⟩
  · intro h
    subst h
    exact ⟨rfl, rfl⟩
  · intro h
    subst h
    rfl

/-- Witness for claim C8 with both settings of retryOverQueryLimit. -/
theorem C8_retry_witness :
    (mkClient [] exampleIsNetIdem "https://example.org" "routingjs" 5000 true
        none 3 none).retryOpts.retryCondition =
      some (customRetryCondition exampleIsNetIdem) ∧
    (mkClient [] exampleIsNetIdem "https://example.org" "routingjs" 5000 false
        none 3 none).retryOpts.retryCondition = none ∧
    (mkClient [] exampleIsNetIdem "https://example.org" "routingjs" 5000 true
        none 3 none).retryOpts.retries = 3 := by
  refine ⟨?_, ?_, ?_⟩
  · exact ((C8_retry [] exampleIsNetIdem "https://example.org" "routingjs"
      5000 true none 3 none exampleErrSetup).2.2.1 rfl).1
  · exact (C8_retry [] exampleIsNetIdem "https://example.org" "routingjs"
      5000 false none 3 none exampleErrSetup).2.2.2 rfl
  · exact (C8_retry [] exampleIsNetIdem "https://example.org" "routingjs"
      5000 true none 3 none exampleErrSetup).1

/-- Claim C9: a request call never mutates the client instance — the client
state coming out of request equals the state going in (so every field,
baseURL through retry configuration, is unchanged), whatever branch the
call takes. -/
theorem C9_no_mutation {G P : Type} (ext : Externals G P)
    (net : NetCall G P → NetResult) (c : ClientState)
    (args : RequestArgs G P) :
    (c.request ext net args).1 = c := by
  unfold ClientState.request
  dsimp only
  repeat' split
  all_goals rfl

/-- Claim C10: when the concatenation of baseURL and endpoint does not
parse as a URL, request fails with the raw URL-parse error before any
routing or dry-run handling: no network call is recorded and the error is
neither an APIError nor a ClientError — even when dryRun is true. -/
theorem C10_url_parse_error {G P : Type} (ext : Externals G P)
    (net : NetCall G P → NetResult) (c : ClientState)
    (args : RequestArgs G P)
    (hfail : ext.parseURL (c.baseURL ++ args.endpoint) = none) :
    c.request ext net args =
      (c, none, Except.error RequestError.urlParseError) ∧
    RequestError.urlParseError.isAPIError = false ∧
    RequestError.urlParseError.isClientError = false := by
  refine ⟨?_, rfl, rfl⟩
  simp only [ClientState.request, hfail]

/-- Witness for claim C10: a rejecting URL parser with dryRun true still
produces the raw URL-parse error. -/
theorem C10_url_parse_error_witness :
    exampleClient.request exampleExternalsBadURL exampleNetOk
        { endpoint := "/route", getParams := none, postParams := none
        , auth := none, dryRun := some true } =
      (exampleClient, none, Except.error RequestError.urlParseError) := by
  exact (C10_url_parse_error exampleExternalsBadURL exampleNetOk
    exampleClient
    { endpoint := "/route", getParams := none, postParams := none
    , auth := none, dryRun := some true } rfl).1

end RoutingJS
